import Mathlib

/-!
Verification development for the natural-language-to-SQL query pipeline of the
`EcommerceAIBotMakers` backend (`app/services/query_processor.py`,
`app/services/llm.py`, `app/routes/queries.py`, `app/models/schemas.py`).

Python strings are embedded as `List Char` (or Lean `String` where convenient),
Python floats as `Rat`, Python dicts as ordered association lists, and Python
exceptions as explicit `Except`/error-kind values.  External collaborators
(the Gemini model, the Supabase client) enter as parameters: the pipeline is
modelled as a function of their observable behaviours.
-/

/-- The opening-brace character, by code point. -/
def lbrace : Char := Char.ofNat 123

/-- The closing-brace character, by code point. -/
def rbrace : Char := Char.ofNat 125

/-- Whitespace stripped by Python `str.strip()` (ASCII part; `str.strip` also
strips a few more Unicode space characters, which never occur here). -/
def pyIsStripSpace (c : Char) : Bool :=
  c = ' ' || c = '\t' || c = '\n' || c = '\r' || c = '\x0b' || c = '\x0c'

/-- Python `str.strip()`: remove leading and trailing whitespace. -/
def pyStrip (l : List Char) : List Char :=
  ((l.dropWhile pyIsStripSpace).reverse.dropWhile pyIsStripSpace).reverse

/-- Python `str.lower()` (ASCII part; full Unicode case mapping is not needed
for the keywords and statements involved). -/
def pyLower (l : List Char) : List Char :=
  l.map Char.toLower

/-- Python's substring containment `pat in l` (the `in` operator on `str`). -/
def containsSub (pat : List Char) : List Char → Bool
  | [] => pat.isEmpty
  | c :: rest => List.isPrefixOf pat (c :: rest) || containsSub pat rest

/-- Python `str.find`: index of the first occurrence of character `c`, if any. -/
def pyFindChar (l : List Char) (c : Char) : Option Nat :=
  l.findIdx? (· = c)

/-- Python `str.rfind`: index of the last occurrence of character `c`, if any. -/
def pyRFindChar (l : List Char) (c : Char) : Option Nat :=
  match (l.reverse).findIdx? (· = c) with
  | some i => some (l.length - 1 - i)
  | none => none

/-- Fuel-driven worker for Python `str.replace(pat, '')`: removes the leftmost
occurrences of `pat`, scanning left to right.  The fuel only needs to exceed
the length of the scanned list. -/
def pyReplaceAllAux (pat : List Char) : Nat → List Char → List Char
  | 0, l => l
  | Nat.succ f, l =>
    match l with
    | [] => []
    | c :: rest =>
      if List.isPrefixOf pat l then pyReplaceAllAux pat f (l.drop pat.length)
      else c :: pyReplaceAllAux pat f rest

/-- Python `s.replace(pat, '')` for a non-empty pattern `pat`. -/
def pyReplace (l pat : List Char) : List Char :=
  pyReplaceAllAux pat (l.length + 1) l

/-- JSON values, the result type of Python's `json.loads`. -/
inductive Json where
  | null
  | bool (b : Bool)
  | num (q : Rat)
  | str (s : String)
  | arr (elems : List Json)
  | obj (members : List (String × Json))
deriving Repr

/-- JSON insignificant whitespace. -/
def jsonIsWs (c : Char) : Bool :=
  c = ' ' || c = '\t' || c = '\n' || c = '\r'

/-- Skip JSON whitespace. -/
def skipWs : List Char → List Char
  | [] => []
  | c :: cs => if jsonIsWs c then skipWs cs else c :: cs

/-- Value of a hexadecimal digit, by code point: digits, then the lowercase
and uppercase letter ranges. -/
def hexDigitVal (c : Char) : Option Nat :=
  let n := c.toNat
  if 48 ≤ n && n ≤ 57 then some (n - 48)
  else if 97 ≤ n && n ≤ 102 then some (n - 87)
  else if 65 ≤ n && n ≤ 70 then some (n - 55)
  else none

/-- Parse exactly four hexadecimal digits (the `\uXXXX` escape payload). -/
def parseHex4 : List Char → Option (Nat × List Char)
  | a :: b :: c :: d :: rest =>
    match hexDigitVal a, hexDigitVal b, hexDigitVal c, hexDigitVal d with
    | some x, some y, some z, some w => some (((x * 16 + y) * 16 + z) * 16 + w, rest)
    | _, _, _, _ => none
  | _ => none

/-- Body of a JSON string literal, after the opening quote.  Lone surrogate
escapes (which Python decodes to surrogate code units) are approximated by
`Char.ofNat`; they never occur in the texts considered here. -/
def parseStringBody : Nat → List Char → List Char → Option (String × List Char)
  | 0, _, _ => none
  | Nat.succ f, acc, cs =>
    match cs with
    | [] => none
    | c :: rest =>
      if c = '"' then some (String.mk acc.reverse, rest)
      else if c = '\\' then
        match rest with
        | [] => none
        | e :: rest2 =>
          if e = '"' then parseStringBody f ('"' :: acc) rest2
          else if e = '\\' then parseStringBody f ('\\' :: acc) rest2
          else if e = '/' then parseStringBody f ('/' :: acc) rest2
          else if e = 'b' then parseStringBody f ('\x08' :: acc) rest2
          else if e = 'f' then parseStringBody f ('\x0c' :: acc) rest2
          else if e = 'n' then parseStringBody f ('\n' :: acc) rest2
          else if e = 'r' then parseStringBody f ('\r' :: acc) rest2
          else if e = 't' then parseStringBody f ('\t' :: acc) rest2
          else if e = 'u' then
            match parseHex4 rest2 with
            | some (n, rest3) => parseStringBody f (Char.ofNat n :: acc) rest3
            | none => none
          else none
      else parseStringBody f (c :: acc) rest

/-- Numeric value of a digit string. -/
def digitsToNat (ds : List Char) : Nat :=
  ds.foldl (fun a c => a * 10 + (c.toNat - '0'.toNat)) 0

/-- Powers of ten, as rationals. -/
def tenPow (n : Nat) : Rat :=
  (10 : Rat) ^ n

/-- Apply a leading minus sign. -/
def applySign (neg : Bool) (q : Rat) : Rat :=
  if neg then -q else q

/-- Exponent suffix of a JSON number (after `e`/`E`). -/
def parseExpSuffix (base : Rat) (neg : Bool) (t : List Char) : Option (Rat × List Char) :=
  let (esign, t2) :=
    match t with
    | '+' :: u => (false, u)
    | '-' :: u => (true, u)
    | _ => (false, t)
  let (es, t3) := t2.span (fun c => c.isDigit)
  if es.isEmpty then none
  else
    let e := digitsToNat es
    some (applySign neg (if esign then base / tenPow e else base * tenPow e), t3)

/-- JSON number literal (lenient about leading zeros, which Python's decoder
rejects; no such literal occurs in the texts considered here). -/
def parseNumber (cs : List Char) : Option (Rat × List Char) :=
  let (neg, cs1) :=
    match cs with
    | '-' :: t => (true, t)
    | _ => (false, cs)
  let (ds, cs2) := cs1.span (fun c => c.isDigit)
  if ds.isEmpty then none
  else
    let ip : Rat := (digitsToNat ds : Nat)
    let withFrac : Option (Rat × List Char) :=
      match cs2 with
      | '.' :: t =>
        let (fs, cs3) := t.span (fun c => c.isDigit)
        if fs.isEmpty then none
        else some (ip + (digitsToNat fs : Nat) / tenPow fs.length, cs3)
      | _ => some (ip, cs2)
    match withFrac with
    | none => none
    | some (base, cs3) =>
      match cs3 with
      | 'e' :: t => parseExpSuffix base neg t
      | 'E' :: t => parseExpSuffix base neg t
      | _ => some (applySign neg base, cs3)

/-- Task selector for the single-function JSON value parser: parse a full
value, the members of an object after `\x7b`, or the elements of an array
after `[`. -/
inductive JTask where
  | value
  | objRest (acc : List (String × Json))
  | arrRest (acc : List Json)

/-- Recursive-descent JSON value parser, structurally recursive on a fuel
bound.  Every recursive call consumes at least one input character per two
units of fuel, so `2 * length + 2` fuel always suffices. -/
def parseJ : Nat → JTask → List Char → Option (Json × List Char)
  | 0, _, _ => none
  | Nat.succ f, JTask.value, cs =>
    match skipWs cs with
    | [] => none
    | c :: rest =>
      if c = lbrace then
        match skipWs rest with
        | c2 :: rest2 =>
          if c2 = rbrace then some (Json.obj [], rest2)
          else parseJ f (JTask.objRest []) (c2 :: rest2)
        | [] => none
      else if c = '[' then
        match skipWs rest with
        | c2 :: rest2 =>
          if c2 = ']' then some (Json.arr [], rest2)
          else parseJ f (JTask.arrRest []) (c2 :: rest2)
        | [] => none
      else if c = '"' then
        match parseStringBody (rest.length + 1) [] rest with
        | some (s, rest2) => some (Json.str s, rest2)
        | none => none
      else if c = 't' then
        if List.isPrefixOf "rue".data rest then some (Json.bool true, rest.drop 3) else none
      else if c = 'f' then
        if List.isPrefixOf "alse".data rest then some (Json.bool false, rest.drop 4) else none
      else if c = 'n' then
        if List.isPrefixOf "ull".data rest then some (Json.null, rest.drop 3) else none
      else
        match parseNumber (c :: rest) with
        | some (q, rest2) => some (Json.num q, rest2)
        | none => none
  | Nat.succ f, JTask.objRest acc, cs =>
    match skipWs cs with
    | c :: rest =>
      if c = '"' then
        match parseStringBody (rest.length + 1) [] rest with
        | some (k, rest2) =>
          match skipWs rest2 with
          | ':' :: rest3 =>
            match parseJ f JTask.value rest3 with
            | some (v, rest4) =>
              match skipWs rest4 with
              | c5 :: rest5 =>
                if c5 = ',' then parseJ f (JTask.objRest (acc ++ [(k, v)])) rest5
                else if c5 = rbrace then some (Json.obj (acc ++ [(k, v)]), rest5)
                else none
              | [] => none
            | none => none
          | _ => none
        | none => none
      else none
    | [] => none
  | Nat.succ f, JTask.arrRest acc, cs =>
    match parseJ f JTask.value cs with
    | some (v, rest) =>
      match skipWs rest with
      | ',' :: rest2 => parseJ f (JTask.arrRest (acc ++ [v])) rest2
      | ']' :: rest2 => some (Json.arr (acc ++ [v]), rest2)
      | _ => none
    | none => none

/-- Model of Python `json.loads`: the whole input must be one JSON value,
possibly surrounded by whitespace; `none` models a raised
`json.JSONDecodeError`. -/
def json_loads (cs : List Char) : Option Json :=
  match parseJ (2 * cs.length + 2) JTask.value cs with
  | some (v, rest) => if (skipWs rest).isEmpty then some v else none
  | none => none

/-! ### SqlSafetyGate: `QueryProcessor.validate_query_safety` -/

/-- The denylist of `QueryProcessor.validate_query_safety`
(`query_processor.py`, lines 104-107). -/
def dangerous_operations : List (List Char) :=
  ["drop".data, "delete".data, "insert".data, "update".data, "alter".data,
   "create".data, "truncate".data, "grant".data, "revoke".data, "exec".data,
   "execute".data]

/-- `QueryProcessor.validate_query_safety` (`query_processor.py`, lines
95-125): strip and lowercase the candidate, reject on any denylisted
substring, reject unless it starts with `select`, accept otherwise.  The
`try`/`except` wrapper is dead for `str` inputs (none of the string
operations raise) and is not modelled. -/
def validate_query_safety (sql_query : List Char) : Bool :=
  let cleaned_query := pyLower (pyStrip sql_query)
  if dangerous_operations.any (fun op => containsSub op cleaned_query) then false
  else if !(List.isPrefixOf "select".data cleaned_query) then false
  else true

example : validate_query_safety "  SELECT * FROM users  ".data = true := by decide
example : validate_query_safety "DROP TABLE users".data = false := by decide
example : validate_query_safety "select * from updates".data = false := by decide
example : validate_query_safety "select created_at from orders".data = false := by decide
example : json_loads "\x7b\"sql_query\":\"SELECT * FROM users\"\x7d".data =
    some (Json.obj [("sql_query", Json.str "SELECT * FROM users")]) := by rfl
example : json_loads "\x7b\"a\": [1, 2, true, null], \"b\": \x7b\x7d\x7d".data =
    some (Json.obj [("a", Json.arr [Json.num 1, Json.num 2, Json.bool true, Json.null]),
                    ("b", Json.obj [])]) := by rfl
example : json_loads "".data = none := by rfl
example : json_loads "\x7b\"a\": 1".data = none := by rfl

/-! ### QueryTranslator: `GeminiService.human_query_to_sql` (`llm.py`) -/

/-- The distinct failure sites of `GeminiService.human_query_to_sql`
(`llm.py`): the code raises plain `Exception`s with distinct messages; the
constructors record the originating raise site. -/
inductive GeminiError where
  | emptyResponse    -- line 77: `if not response.text` ("Gemini did not generate a response")
  | noJsonFound      -- line 117: no brace pair in `_clean_json_response`
  | jsonDecodeError  -- line 99: `json.JSONDecodeError` from `json.loads`
  | missingSqlQuery  -- line 88: parsed object lacks the key `sql_query`
deriving Repr, DecidableEq

/-- Classification of the failure kinds after the spec's error taxonomy (§7):
an empty model response is a `GenerationError`; the three envelope-parsing
failures are `TranslationError`s. -/
def isTranslationError : GeminiError → Bool
  | GeminiError.emptyResponse => false
  | _ => true

/-- `SQLQueryResult` (`schemas.py`, lines 60-64), holding the raw JSON values
drawn from the model's response object; pydantic's field-type coercion is not
modelled (all fields are strings or absent in every scenario considered). -/
structure SQLQueryResult where
  sql_query : Json
  original_query : Json
  confidence : Json
deriving Repr

/-- Python `k in d` for a parsed JSON payload: key membership when the payload
is an object.  (For non-object payloads Python's `in` means element or
substring membership, but the cleaned text always begins with a brace, so a
successfully parsed payload is always an object.) -/
def hasKeyJson (k : String) : Json → Bool
  | Json.obj kvs => kvs.any (fun kv => kv.1 = k)
  | _ => false

/-- Python `d.get(k, default)` on a parsed JSON object; with duplicate keys
`json.loads` keeps the last occurrence, hence the reversed search. -/
def dictGetD (kvs : List (String × Json)) (k : String) (d : Json) : Json :=
  match kvs.reverse.find? (fun kv => kv.1 = k) with
  | some kv => kv.2
  | none => d

/-- `GeminiService._clean_json_response` (`llm.py`, lines 109-129): slice from
the first `\x7b` to the last `\x7d`, delete code-fence markers, strip; `none`
models the raised `ValueError` when either brace is absent. -/
def _clean_json_response (response_text : List Char) : Option (List Char) :=
  match pyFindChar response_text lbrace, pyRFindChar response_text rbrace with
  | some start_idx, some last_idx =>
    let json_str := (response_text.drop start_idx).take (last_idx + 1 - start_idx)
    let json_str := pyReplace (pyReplace json_str "```json".data) "```".data
    some (pyStrip json_str)
  | _, _ => none

/-- Construction step of `human_query_to_sql` (`llm.py`, lines 86-94): check
that the parsed payload carries `sql_query` (the Python `in` test, false for
every non-dict payload) and build the `SQLQueryResult` with the two
documented defaults. -/
def payload_to_result (human_query : String) (j : Json) : Except GeminiError SQLQueryResult :=
  match j with
  | Json.obj kvs =>
    if hasKeyJson "sql_query" (Json.obj kvs) then
      Except.ok
        { sql_query := dictGetD kvs "sql_query" (Json.str "")
          original_query := dictGetD kvs "original_query" (Json.str human_query)
          confidence := dictGetD kvs "confidence" (Json.num (1/2)) }
    else Except.error GeminiError.missingSqlQuery
  | _ => Except.error GeminiError.missingSqlQuery

/-- Parsing step of `human_query_to_sql` (`llm.py`, lines 84-94):
`json.loads` on the cleaned text, then the payload check and construction. -/
def parse_sql_payload (human_query : String) (cleaned : List Char) :
    Except GeminiError SQLQueryResult :=
  match json_loads cleaned with
  | none => Except.error GeminiError.jsonDecodeError
  | some j => payload_to_result human_query j

/-- `GeminiService.human_query_to_sql` (`llm.py`, lines 35-107) as a function
of the model's response text: the generated prompt and the `generate_content`
call are the external collaborator boundary, so the translation is modelled
from the returned text onward.  Mirrors, in order: the empty-response check
(line 75), `_clean_json_response`, and the parsing and construction stages
above. -/
def human_query_to_sql (human_query : String) (response_text : String) :
    Except GeminiError SQLQueryResult :=
  if response_text = "" then Except.error GeminiError.emptyResponse
  else
    match _clean_json_response response_text.data with
    | none => Except.error GeminiError.noJsonFound
    | some cleaned => parse_sql_payload human_query cleaned

/-- The three failure conditions named by the spec for the translation step:
no brace pair in the raw text, unparseable extracted payload, or a payload
without the `sql_query` key. -/
def translationFailureCondition (t : String) : Prop :=
  _clean_json_response t.data = none ∨
  (∃ cleaned, _clean_json_response t.data = some cleaned ∧ json_loads cleaned = none) ∨
  (∃ cleaned j, _clean_json_response t.data = some cleaned ∧ json_loads cleaned = some j ∧
    hasKeyJson "sql_query" j = false)

/-- The model response used by the spec's translation example. -/
def geminiDemoResponse : String :=
  "Sure! ```json\n\x7b\"sql_query\":\"SELECT * FROM users\"\x7d\n```"

example :
    human_query_to_sql "show all users" geminiDemoResponse =
      Except.ok { sql_query := Json.str "SELECT * FROM users"
                  original_query := Json.str "show all users"
                  confidence := Json.num (1/2) } := by rfl

example : human_query_to_sql "q" "no braces here" = Except.error GeminiError.noJsonFound := by rfl
example : human_query_to_sql "q" "\x7b\"foo\": 1\x7d" = Except.error GeminiError.missingSqlQuery := by rfl
example : human_query_to_sql "q" "\x7bnot json\x7d" = Except.error GeminiError.jsonDecodeError := by rfl
example : human_query_to_sql "q" "" = Except.error GeminiError.emptyResponse := by rfl

/-! ### AnswerComposer: `GeminiService.build_answer` (`llm.py`, lines 131-182) -/

/-- A result row: one record of the executed query, as a column-to-value
mapping. -/
abbrev Row := List (String × Json)

/-- The row-cap of `build_answer` (`llm.py`, lines 143-144): keep only the
first 10 rows when more were returned. -/
def limited_result (query_result : List Row) : List Row :=
  if query_result.length > 10 then query_result.take 10 else query_result

/-- Text of the `build_answer` narration prompt before the embedded question
(`llm.py`, lines 146-160). -/
def answerPromptHeader : String :=
  "\nYou are an ecommerce assistant that generates natural language responses based on your ecommerce stock.\n\nINSTRUCTIONS:\n- Respond in English naturally and conversationally\n- Be concise but informative\n- If there's no data, explain it in a friendly way (No stock available)\n- Include relevant information from the data (names, prices, quantities, etc.)\n- Use a professional but approachable tone\n- For products, mention names, prices, and availability when relevant\n- For users, mention general information without sensitive data\n- For orders, include totals and statuses\n-DOES NOT use special formatting like *, **, etc.\n\nORIGINAL QUESTION: "

/-- Text of the narration prompt between the question and the embedded data
(`llm.py`, lines 160-163). -/
def answerPromptMid : String := "\n\nDATABASE DATA:\n"

/-- Text of the narration prompt after the embedded data (`llm.py`, lines
163-166). -/
def answerPromptFooter : String :=
  "\n\nGenerate a natural and helpful response based on this data:\n            "

/-- The narration prompt built by `GeminiService.build_answer` (`llm.py`,
lines 138-166), parameterised over the row serialiser (`json.dumps` with
`indent=2, ensure_ascii=False, default=str` in the source — an external
library function whose exact text does not matter to any claim). -/
def build_answer_prompt (dumps : List Row → String) (query_result : List Row)
    (human_query : String) : String :=
  answerPromptHeader ++ human_query ++ answerPromptMid ++
    dumps (limited_result query_result) ++ answerPromptFooter

/-! ### QueryPipeline: `QueryProcessor` (`query_processor.py`) -/

/-- Python exception kinds distinguished by the `except` clauses of
`QueryProcessor.process_human_query` (lines 51-69): `ValueError`,
`ConnectionError`, and every other `Exception`. -/
inductive PyExc where
  | valueError (msg : String)
  | connectionError (msg : String)
  | otherError (msg : String)
deriving Repr, DecidableEq

/-- The SQL candidate as consumed by the pipeline: the `SQLQueryResult`
pydantic model after validation, with its declared field types
(`schemas.py`, lines 60-64). -/
structure SqlCandidate where
  sql_query : String
  original_query : String
  confidence : Option Rat
deriving Repr, DecidableEq

/-- Observable behaviour of the pipeline's collaborators: the two
configuration flags (`database_service.supabase` / `gemini_service.model`
being set) and the three awaited calls, each returning a value or raising. -/
structure Collaborators where
  supabase_configured : Bool
  model_configured : Bool
  human_query_to_sql : String → Except PyExc SqlCandidate
  execute_query : String → Except PyExc (List Row)
  build_answer : List Row → String → Except PyExc String

/-- `QueryProcessor._verify_services_configured` (`query_processor.py`, lines
71-85): collect one message per unconfigured dependency and raise a single
`ValueError` joining all of them, or return normally. -/
def _verify_services_configured (supabase_configured model_configured : Bool) :
    Except PyExc Unit :=
  let errors :=
    (if !supabase_configured then ["Supabase is not configured"] else []) ++
    (if !model_configured then ["Gemini is not configured"] else [])
  if errors.isEmpty then Except.ok ()
  else Except.error (PyExc.valueError ("Services not configured: " ++ String.intercalate ", " errors))

/-- The value returned by `process_human_query`: either
`HumanQueryResponse(...).dict()` or `ErrorResponse(...).dict()`
(`schemas.py`, lines 26-57). -/
inductive PipelineResponse where
  | success (answer : String) (sql_query : String) (execution_time : Rat)
  | error (error : String) (details : Option String) (timestamp : Rat)
deriving Repr, DecidableEq

/-- `QueryProcessor._create_error_response` (`query_processor.py`, lines
87-93); the timestamp is `datetime.now()` at creation, passed in as the
current clock reading. -/
def _create_error_response (error_message : String) (details : Option String)
    (timestamp : Rat) : PipelineResponse :=
  PipelineResponse.error error_message details timestamp

/-- The `except` cascade of `process_human_query` (`query_processor.py`,
lines 51-69): `ValueError` becomes the configuration error response,
`ConnectionError` the connectivity one, anything else the generic wrapper. -/
def handle_exception (e : PyExc) (timestamp : Rat) : PipelineResponse :=
  match e with
  | PyExc.valueError _ =>
    _create_error_response "Service not configured correctly"
      (some "Verify your Supabase and Gemini configuration in the .env file") timestamp
  | PyExc.connectionError _ =>
    _create_error_response "Connection error with services"
      (some "Verify your internet connectivity and credentials") timestamp
  | PyExc.otherError m =>
    _create_error_response ("Error processing query: " ++ m) none timestamp

/-- `QueryProcessor.process_human_query` (`query_processor.py`, lines 16-69).
Clock readings are passed in explicitly: `start_time` is `time.time()` at
entry, `end_time` is `time.time()` at outcome assembly (line 40), and
`err_time` is `datetime.now()` if an error response is created.  The second
component of the result is the trace of SQL strings passed to
`database.execute_query`, in call order — `[]` means the executor was never
invoked in the run. -/
def process_human_query (c : Collaborators) (human_query : String)
    (start_time end_time err_time : Rat) : PipelineResponse × List String :=
  match _verify_services_configured c.supabase_configured c.model_configured with
  | Except.error e => (handle_exception e err_time, [])
  | Except.ok _ =>
    match c.human_query_to_sql human_query with
    | Except.error e => (handle_exception e err_time, [])
    | Except.ok sql_result =>
      if !(validate_query_safety sql_result.sql_query.data) then
        (_create_error_response "SQL query not allowed for security reasons"
          (some "Only SELECT queries are allowed") err_time, [])
      else
        match c.execute_query sql_result.sql_query with
        | Except.error e => (handle_exception e err_time, [sql_result.sql_query])
        | Except.ok query_result =>
          match c.build_answer query_result human_query with
          | Except.error e => (handle_exception e err_time, [sql_result.sql_query])
          | Except.ok natural_answer =>
            (PipelineResponse.success natural_answer sql_result.sql_query
              (end_time - start_time), [sql_result.sql_query])

/-- Values appearing in the returned response dictionaries. -/
inductive PyVal where
  | str (s : String)
  | rat (q : Rat)
  | noneVal
deriving Repr, DecidableEq

/-- The `.dict()` serialisation of the two pydantic response models
(`schemas.py`): `HumanQueryResponse` has exactly the keys `answer`,
`sql_query`, `execution_time`; `ErrorResponse` exactly `error`, `details`,
`timestamp`, in declaration order. -/
def PipelineResponse.to_dict : PipelineResponse → List (String × PyVal)
  | PipelineResponse.success answer sql_query execution_time =>
    [("answer", PyVal.str answer), ("sql_query", PyVal.str sql_query),
     ("execution_time", PyVal.rat execution_time)]
  | PipelineResponse.error e details timestamp =>
    [("error", PyVal.str e),
     ("details", match details with | some d => PyVal.str d | none => PyVal.noneVal),
     ("timestamp", PyVal.rat timestamp)]

/-- Python `k in d` on a response dictionary. -/
def hasKeyDict (k : String) (d : List (String × PyVal)) : Bool :=
  d.any (fun kv => kv.1 = k)

/-- Python `d[k]` on a response dictionary whose value at `k` is a string
(the `error` value always is). -/
def dictGetStr (d : List (String × PyVal)) (k : String) : String :=
  match d.find? (fun kv => kv.1 = k) with
  | some (_, PyVal.str s) => s
  | _ => ""

/-! ### Health status: `QueryProcessor.get_health_status` (lines 127-180) -/

/-- The dictionary returned by `get_health_status`: overall status, the two
per-service booleans, and the descriptive message. -/
structure HealthStatus where
  status : String
  services : Bool × Bool
  message : String
deriving Repr, DecidableEq

/-- `QueryProcessor._get_status_message` (`query_processor.py`, lines
166-180). -/
def _get_status_message (status : String) (database_health llm_health : Bool) : String :=
  if status = "healthy" then "All services are working correctly"
  else if status = "degraded" then
    "Problems with: " ++ String.intercalate ", "
      ((if !database_health then ["Supabase"] else []) ++
       (if !llm_health then ["Gemini"] else []))
  else if status = "unhealthy" then "Critical services unavailable - check your configuration"
  else "Unknown system status"

/-- `QueryProcessor.get_health_status` (`query_processor.py`, lines 127-164)
as a function of the two collaborator health-check results (the `except`
wrapper only fires if a health check itself raises, which is outside the
claim's scope of returned booleans). -/
def get_health_status (database_health llm_health : Bool) : HealthStatus :=
  let overall_status := if database_health && llm_health then "healthy" else "degraded"
  let overall_status := if !database_health && !llm_health then "unhealthy" else overall_status
  { status := overall_status
    services := (database_health, llm_health)
    message := _get_status_message overall_status database_health llm_health }

/-! ### HTTP route: `process_human_query` (`routes/queries.py`, lines 29-58) -/

/-- Outcome of the `POST /api/v1/query` handler: a 200 response carrying the
processor's dictionary, or an `HTTPException` with a status code and detail
string. -/
inductive RouteResult where
  | success (body : List (String × PyVal))
  | httpError (status_code : Nat) (detail : String)
deriving Repr, DecidableEq

/-- The `POST /api/v1/query` handler (`routes/queries.py`, lines 29-58):
reject a blank query with 400, call the processor, turn any `error`-keyed
result into a 400 with the error message as detail, otherwise return the
dictionary.  The final `except Exception` 500 branch is unreachable in this
model because `process_human_query` catches every collaborator exception and
always returns a dictionary. -/
def route_process_human_query (c : Collaborators) (human_query : String)
    (start_time end_time err_time : Rat) : RouteResult :=
  if pyStrip human_query.data = [] then RouteResult.httpError 400 "Query cannot be empty"
  else
    let result := (process_human_query c human_query start_time end_time err_time).1.to_dict
    if hasKeyDict "error" result then RouteResult.httpError 400 (dictGetStr result "error")
    else RouteResult.success result

/-! ### Helper lemmas -/

/-- The executable substring check agrees with the mathematical infix
relation. -/
theorem containsSub_correct (pat l : List Char) : containsSub pat l = true ↔ pat <:+: l := by
  induction l with
  | nil =>
    simp [containsSub, List.isEmpty_iff, List.infix_nil]
  | cons c rest ih =>
    simp [containsSub, List.isPrefixOf_iff_prefix, ih, List.infix_cons_iff]

/-- The services check succeeds exactly when both dependencies are
configured. -/
theorem verify_ok_iff (sb md : Bool) :
    _verify_services_configured sb md = Except.ok () ↔ (sb = true ∧ md = true) := by
  cases sb <;> cases md <;> simp [_verify_services_configured]

/-- C1.  `validate_query_safety` returns SAFE (`true`) if and only if the
stripped, lowercased form of the input starts with `select` and contains none
of the denylisted keywords as a substring; in every other case it returns
UNSAFE (`false`). -/
theorem validate_query_safety_spec (s : List Char) :
    validate_query_safety s = true ↔
      ("select".data <+: pyLower (pyStrip s) ∧
        ∀ op ∈ dangerous_operations, ¬ op <:+: pyLower (pyStrip s)) := by
  unfold validate_query_safety
  rcases hA : dangerous_operations.any (fun op => containsSub op (pyLower (pyStrip s))) with _ | _
  · rcases hP : List.isPrefixOf "select".data (pyLower (pyStrip s)) with _ | _
    · simp only [hA, hP]
      simp only [Bool.false_eq_true, if_false, Bool.not_false, if_true]
      constructor
      · intro h; exact absurd h (by simp)
      · rintro ⟨hpre, -⟩
        rw [← List.isPrefixOf_iff_prefix] at hpre
        rw [hP] at hpre
        exact absurd hpre (by simp)
    · simp only [hA, hP]
      simp only [Bool.false_eq_true, if_false, Bool.not_true, if_true]
      constructor
      · intro _
        refine ⟨ List.isPrefixOf_iff_prefix.mp hP, ?_⟩
        intro op hop hinf
        have : dangerous_operations.any (fun op => containsSub op (pyLower (pyStrip s))) = true :=
          List.any_eq_true.mpr ⟨op, hop, (containsSub_correct _ _).mpr hinf⟩
        rw [hA] at this
        exact absurd this (by simp)
      · intro _; trivial
  · simp only [hA, if_true]
    constructor
    · intro h; exact absurd h (by simp)
    · rintro ⟨-, hnone⟩
      rcases List.any_eq_true.mp hA with ⟨op, hop, hcs⟩
      exact absurd ((containsSub_correct _ _).mp hcs) (hnone op hop)

/-- C2.  When the translated candidate fails the safety gate, the pipeline
returns the security-rejection error response and the executor trace is
empty: `database.execute_query` is never invoked in that run. -/
theorem process_unsafe_sql_short_circuits (c : Collaborators) (q : String)
    (t0 t1 terr : Rat) (r : SqlCandidate)
    (hsb : c.supabase_configured = true) (hmd : c.model_configured = true)
    (htr : c.human_query_to_sql q = Except.ok r)
    (hgate : validate_query_safety r.sql_query.data = false) :
    process_human_query c q t0 t1 terr =
      (_create_error_response "SQL query not allowed for security reasons"
        (some "Only SELECT queries are allowed") terr, []) := by
  have hv : _verify_services_configured c.supabase_configured c.model_configured =
      Except.ok () := by
    rw [hsb, hmd]
    rfl
  simp [process_human_query, hv, htr, hgate, _create_error_response]

/-- Concrete collaborators for the C2 witness run: the translator yields
`DROP TABLE users`. -/
def collabC2 : Collaborators :=
  { supabase_configured := true
    model_configured := true
    human_query_to_sql := fun _ =>
      Except.ok { sql_query := "DROP TABLE users", original_query := "delete all users"
                  confidence := some (9/10) }
    execute_query := fun _ => Except.ok []
    build_answer := fun _ _ => Except.ok "done" }

/-- Witness for C2: a concrete run in which the gate rejects the translated
SQL, the security-rejection response is returned and nothing reaches the
executor. -/
theorem process_unsafe_sql_short_circuits_witness :
    validate_query_safety "DROP TABLE users".data = false ∧
    collabC2.human_query_to_sql "delete all users" =
      Except.ok { sql_query := "DROP TABLE users", original_query := "delete all users"
                  confidence := some (9/10) } ∧
    process_human_query collabC2 "delete all users" 0 1 2 =
      (_create_error_response "SQL query not allowed for security reasons"
        (some "Only SELECT queries are allowed") 2, []) :=
  ⟨by decide, rfl,
    process_unsafe_sql_short_circuits collabC2 "delete all users" 0 1 2 _ rfl rfl rfl
      (by decide)⟩

/-- C7.  In a run where translation succeeds, the gate accepts, execution
returns rows and composition returns a (non-empty) narration, the success
outcome carries exactly the translator's SQL string — the same string that
was gated and executed (the trace records it as the executed query) — and the
execution time is the difference of the two clock readings taken at pipeline
start and at outcome assembly, which is non-negative whenever the clock is
monotone. -/
theorem process_success_outcome (c : Collaborators) (q : String)
    (t0 t1 terr : Rat) (r : SqlCandidate) (rows : List Row) (ans : String)
    (hsb : c.supabase_configured = true) (hmd : c.model_configured = true)
    (htr : c.human_query_to_sql q = Except.ok r)
    (hsafe : validate_query_safety r.sql_query.data = true)
    (hex : c.execute_query r.sql_query = Except.ok rows)
    (hans : c.build_answer rows q = Except.ok ans) (hne : ans ≠ "")
    (hclk : t0 ≤ t1) :
    process_human_query c q t0 t1 terr =
      (PipelineResponse.success ans r.sql_query (t1 - t0), [r.sql_query]) ∧
    0 ≤ t1 - t0 := by
  have hv : _verify_services_configured c.supabase_configured c.model_configured =
      Except.ok () := by
    rw [hsb, hmd]
    rfl
  constructor
  · simp [process_human_query, hv, htr, hsafe, hex, hans]
  · linarith

/-- The three rows returned by the executor in the C7 witness run. -/
def rowsC7 : List Row :=
  [[("id", Json.num 1)], [("id", Json.num 2)], [("id", Json.num 3)]]

/-- Concrete collaborators for the C7 witness run, following the spec's
end-to-end example. -/
def collabC7 : Collaborators :=
  { supabase_configured := true
    model_configured := true
    human_query_to_sql := fun _ =>
      Except.ok { sql_query := "SELECT * FROM users", original_query := "show all users"
                  confidence := some (19/20) }
    execute_query := fun _ => Except.ok rowsC7
    build_answer := fun _ _ => Except.ok "There are 3 users." }

/-- Witness for C7: the spec's end-to-end success example evaluated on
concrete collaborators and clock readings. -/
theorem process_success_outcome_witness :
    validate_query_safety "SELECT * FROM users".data = true ∧
    ("There are 3 users." ≠ "") ∧ ((0 : Rat) ≤ 1) ∧
    (process_human_query collabC7 "show all users" 0 1 2 =
      (PipelineResponse.success "There are 3 users." "SELECT * FROM users" (1 - 0),
        ["SELECT * FROM users"]) ∧
      (0 : Rat) ≤ 1 - 0) :=
  ⟨by decide, by decide, by decide,
    process_success_outcome collabC7 "show all users" 0 1 2 _ rowsC7 "There are 3 users."
      rfl rfl rfl (by decide) rfl rfl (by decide) (by decide)⟩

/-- C8.  `get_health_status` reports `healthy` exactly when both collaborator
health checks succeed, `unhealthy` exactly when both fail, `degraded` exactly
when one succeeds and one fails, and passes the two booleans through
unchanged in the services map. -/
theorem get_health_status_spec (database_health llm_health : Bool) :
    ((get_health_status database_health llm_health).status = "healthy" ↔
      database_health = true ∧ llm_health = true) ∧
    ((get_health_status database_health llm_health).status = "unhealthy" ↔
      database_health = false ∧ llm_health = false) ∧
    ((get_health_status database_health llm_health).status = "degraded" ↔
      database_health ≠ llm_health) ∧
    (get_health_status database_health llm_health).services = (database_health, llm_health) := by
  cases database_health <;> cases llm_health <;> decide

/-- C9.  The services check fails with a `ValueError` exactly when at least
one dependency is unconfigured, and the raised message names each
unconfigured dependency — both when both are missing — and no configured
one. -/
theorem verify_services_configured_spec (sb md : Bool) :
    (_verify_services_configured sb md = Except.ok () ↔ (sb = true ∧ md = true)) ∧
    (∀ m, _verify_services_configured sb md = Except.error (PyExc.valueError m) →
      (("Supabase is not configured".data <:+: m.data ↔ sb = false) ∧
       ("Gemini is not configured".data <:+: m.data ↔ md = false))) ∧
    ((sb = false ∨ md = false) →
      ∃ m, _verify_services_configured sb md = Except.error (PyExc.valueError m)) := by
  refine ⟨verify_ok_iff sb md, ?_, ?_⟩
  · intro m hm
    cases sb <;> cases md <;> simp [_verify_services_configured] at hm <;> subst hm <;> decide
  · cases sb <;> cases md <;> intro h
    · exact ⟨_, rfl⟩
    · exact ⟨_, rfl⟩
    · exact ⟨_, rfl⟩
    · simp at h

/-- The condition under which a pipeline run succeeds: both services
configured, translation succeeds, the gate accepts, execution returns rows
and composition returns an answer. -/
def SuccessCond (c : Collaborators) (q : String) : Prop :=
  c.supabase_configured = true ∧ c.model_configured = true ∧
    ∃ r rows ans, c.human_query_to_sql q = Except.ok r ∧
      validate_query_safety r.sql_query.data = true ∧
      c.execute_query r.sql_query = Except.ok rows ∧
      c.build_answer rows q = Except.ok ans

/-- The exception handler always produces the error constructor, with the
given timestamp. -/
theorem handle_exception_shape (e : PyExc) (ts : Rat) :
    ∃ m d, handle_exception e ts = PipelineResponse.error m d ts := by
  cases e <;> exact ⟨_, _, rfl⟩

/-- Every pipeline run ends in exactly one of the two response constructors,
the success one exactly under `SuccessCond`. -/
theorem process_cases (c : Collaborators) (q : String) (t0 t1 terr : Rat) :
    (SuccessCond c q ∧
      ∃ a s et, (process_human_query c q t0 t1 terr).1 = PipelineResponse.success a s et) ∨
    (¬ SuccessCond c q ∧
      ∃ m d, (process_human_query c q t0 t1 terr).1 = PipelineResponse.error m d terr) := by
  rcases hv : _verify_services_configured c.supabase_configured c.model_configured with e | u
  · have hred : (process_human_query c q t0 t1 terr).1 = handle_exception e terr := by
      simp [process_human_query, hv]
    right
    refine ⟨?_, hred ▸ handle_exception_shape e terr⟩
    rintro ⟨h1, h2, -⟩
    have hok := (verify_ok_iff _ _).mpr ⟨h1, h2⟩
    rw [hok] at hv
    exact Except.noConfusion hv
  · have hsbmd := (verify_ok_iff c.supabase_configured c.model_configured).mp hv
    rcases htr : c.human_query_to_sql q with e | r
    · have hred : (process_human_query c q t0 t1 terr).1 = handle_exception e terr := by
        simp [process_human_query, hv, htr]
      right
      refine ⟨?_, hred ▸ handle_exception_shape e terr⟩
      rintro ⟨-, -, r, rows, ans, htr', -⟩
      rw [htr] at htr'
      exact Except.noConfusion htr'
    · rcases hsafe : validate_query_safety r.sql_query.data with _ | _
      · have hred : (process_human_query c q t0 t1 terr).1 =
            PipelineResponse.error "SQL query not allowed for security reasons"
              (some "Only SELECT queries are allowed") terr := by
          simp [process_human_query, hv, htr, hsafe, _create_error_response]
        right
        refine ⟨?_, ⟨_, _, hred⟩⟩
        rintro ⟨-, -, r', rows', ans', htr', hsafe', -⟩
        rw [htr] at htr'
        injection htr' with hr
        subst hr
        rw [hsafe] at hsafe'
        exact Bool.noConfusion hsafe'
      · rcases hex : c.execute_query r.sql_query with e | rows
        · have hred : (process_human_query c q t0 t1 terr).1 = handle_exception e terr := by
            simp [process_human_query, hv, htr, hsafe, hex]
          right
          refine ⟨?_, hred ▸ handle_exception_shape e terr⟩
          rintro ⟨-, -, r', rows', ans', htr', hsafe', hex', -⟩
          rw [htr] at htr'
          injection htr' with hr
          subst hr
          rw [hex] at hex'
          exact Except.noConfusion hex'
        · rcases hans : c.build_answer rows q with e | ans
          · have hred : (process_human_query c q t0 t1 terr).1 = handle_exception e terr := by
              simp [process_human_query, hv, htr, hsafe, hex, hans]
            right
            refine ⟨?_, hred ▸ handle_exception_shape e terr⟩
            rintro ⟨-, -, r', rows', ans', htr', hsafe', hex', hans'⟩
            rw [htr] at htr'
            injection htr' with hr
            subst hr
            rw [hex] at hex'
            injection hex' with hrows
            subst hrows
            rw [hans] at hans'
            exact Except.noConfusion hans'
          · left
            refine ⟨⟨hsbmd.1, hsbmd.2, r, rows, ans, htr, hsafe, hex, hans⟩,
              ⟨ans, r.sql_query, t1 - t0, by
                simp [process_human_query, hv, htr, hsafe, hex, hans]⟩⟩

/-- C10.  For every input and every collaborator behaviour (including any of
the three exception kinds being raised by any collaborator call), the
pipeline returns a dictionary — modelled by the totality of
`process_human_query` over all `Collaborators` — whose keys are exactly
`answer`, `sql_query`, `execution_time` (success shape) or exactly `error`,
`details`, `timestamp` (error shape); the shapes are disjoint, the `error`
key is present exactly in the error shape, and it is absent exactly when the
run succeeded end to end. -/
theorem process_response_shape (c : Collaborators) (q : String) (t0 t1 terr : Rat) :
    ((process_human_query c q t0 t1 terr).1.to_dict.map Prod.fst =
        ["answer", "sql_query", "execution_time"] ∨
      (process_human_query c q t0 t1 terr).1.to_dict.map Prod.fst =
        ["error", "details", "timestamp"]) ∧
    (hasKeyDict "error" (process_human_query c q t0 t1 terr).1.to_dict = true ↔
      (process_human_query c q t0 t1 terr).1.to_dict.map Prod.fst =
        ["error", "details", "timestamp"]) ∧
    (hasKeyDict "error" (process_human_query c q t0 t1 terr).1.to_dict = false ↔
      (c.supabase_configured = true ∧ c.model_configured = true ∧
        ∃ r rows ans, c.human_query_to_sql q = Except.ok r ∧
          validate_query_safety r.sql_query.data = true ∧
          c.execute_query r.sql_query = Except.ok rows ∧
          c.build_answer rows q = Except.ok ans)) := by
  rcases process_cases c q t0 t1 terr with ⟨hs, a, s, et, hres⟩ | ⟨hns, m, d, hres⟩
  · rw [hres]
    refine ⟨Or.inl rfl,
      ⟨fun h => by simp [hasKeyDict, PipelineResponse.to_dict] at h,
       fun h => by simp [PipelineResponse.to_dict] at h⟩,
      ⟨fun _ => hs, fun _ => rfl⟩⟩
  · rw [hres]
    exact ⟨Or.inr rfl, ⟨fun _ => rfl, fun _ => rfl⟩,
      ⟨fun h => by simp [hasKeyDict, PipelineResponse.to_dict] at h, fun h => absurd h hns⟩⟩

/-- Concrete collaborators for the C3 counterexample: the database client is
unconfigured, so the run fails with a configuration error — not a security
rejection and not an empty input. -/
def collabC3 : Collaborators :=
  { supabase_configured := false
    model_configured := true
    human_query_to_sql := fun _ =>
      Except.ok { sql_query := "SELECT 1", original_query := "", confidence := none }
    execute_query := fun _ => Except.ok []
    build_answer := fun _ _ => Except.ok "ok" }

/-- C3 counterexample.  A configuration error — neither a security rejection
nor an empty input — is mapped by the query route to HTTP 400, a client
error, not to a 5xx server fault as the claim states: the route maps every
`error`-keyed processor result to 400. -/
theorem route_config_error_mapped_to_400 :
    pyStrip "show users".data ≠ [] ∧
    (process_human_query collabC3 "show users" 0 1 2).1 =
      PipelineResponse.error "Service not configured correctly"
        (some "Verify your Supabase and Gemini configuration in the .env file") 2 ∧
    route_process_human_query collabC3 "show users" 0 1 2 =
      RouteResult.httpError 400 "Service not configured correctly" :=
  ⟨by decide, rfl, rfl⟩

/-- C3 (amended).  The query route only ever answers 200 (no `error` key in
the body) or 400: a blank query and every error outcome of the processor —
security rejection, configuration, connection, or any other failure — are all
mapped to a 400 client error with the error message as detail; no processor
error reaches a 5xx response (the route's 500 branch would require the
processor itself to raise, which it never does). -/
theorem route_status_only_200_or_400 (c : Collaborators) (q : String)
    (t0 t1 terr : Rat) :
    (∃ body, route_process_human_query c q t0 t1 terr = RouteResult.success body ∧
      hasKeyDict "error" body = false) ∨
    (∃ detail, route_process_human_query c q t0 t1 terr = RouteResult.httpError 400 detail) := by
  unfold route_process_human_query
  by_cases hq : pyStrip q.data = []
  · right
    exact ⟨"Query cannot be empty", by simp [hq]⟩
  · rcases hkey : hasKeyDict "error" (process_human_query c q t0 t1 terr).1.to_dict with _ | _
    · left
      exact ⟨(process_human_query c q t0 t1 terr).1.to_dict, by simp [hq, hkey], hkey⟩
    · right
      exact ⟨dictGetStr (process_human_query c q t0 t1 terr).1.to_dict "error",
        by simp [hq, hkey]⟩

/-- C6.  The narration prompt embeds exactly the serialisation of the first
`min 10 (length)` rows of the result, in result order: rows beyond the tenth
never reach the prompt, whatever the true result size. -/
theorem build_answer_prompt_truncates (dumps : List Row → String)
    (query_result : List Row) (human_query : String) :
    build_answer_prompt dumps query_result human_query =
      answerPromptHeader ++ human_query ++ answerPromptMid ++
        dumps (query_result.take (min 10 query_result.length)) ++ answerPromptFooter := by
  unfold build_answer_prompt limited_result
  by_cases hlen : query_result.length > 10
  · rw [if_pos hlen, min_eq_left (le_of_lt hlen)]
  · rw [if_neg hlen]
    have h10 : query_result.length ≤ 10 := le_of_not_lt hlen
    rw [min_eq_right h10, List.take_length]

/-- When a key is absent, the dictionary lookup returns the supplied
default. -/
theorem dictGetD_not_mem (kvs : List (String × Json)) (k : String) (d : Json)
    (h : kvs.any (fun kv => kv.1 = k) = false) : dictGetD kvs k d = d := by
  unfold dictGetD
  have hnone : kvs.reverse.find? (fun kv => kv.1 = k) = none := by
    rw [List.find?_eq_none]
    intro x hx hxk
    have hx' : x ∈ kvs := List.mem_reverse.mp hx
    have : kvs.any (fun kv => kv.1 = k) = true := List.any_eq_true.mpr ⟨x, hx', hxk⟩
    rw [h] at this
    exact Bool.noConfusion this
  rw [hnone]

/-- Unfolding equation: with no brace pair the translation fails with the
no-JSON error. -/
theorem human_query_to_sql_eq_of_clean_none (q t : String) (h : t ≠ "")
    (hc : _clean_json_response t.data = none) :
    human_query_to_sql q t = Except.error GeminiError.noJsonFound := by
  simp only [human_query_to_sql, if_neg h, hc]

/-- Unfolding equation: with a brace pair the translation continues on the
cleaned payload. -/
theorem human_query_to_sql_eq_of_clean_some (q t : String) (h : t ≠ "")
    (cleaned : List Char) (hc : _clean_json_response t.data = some cleaned) :
    human_query_to_sql q t = parse_sql_payload q cleaned := by
  simp only [human_query_to_sql, if_neg h, hc]

/-- Unfolding equation: an unparseable payload fails with the decode error. -/
theorem parse_sql_payload_eq_none (q : String) (cleaned : List Char)
    (hj : json_loads cleaned = none) :
    parse_sql_payload q cleaned = Except.error GeminiError.jsonDecodeError := by
  simp only [parse_sql_payload, hj]

/-- Unfolding equation: a parseable payload is handed to the construction
step. -/
theorem parse_sql_payload_eq_some (q : String) (cleaned : List Char) (j : Json)
    (hj : json_loads cleaned = some j) :
    parse_sql_payload q cleaned = payload_to_result q j := by
  simp only [parse_sql_payload, hj]

/-- C4 counterexample.  The empty model response contains no brace pair, so
the claim demands a `TranslationError`; `human_query_to_sql` instead fails at
its empty-response check (`llm.py`, lines 75-77), which the spec's taxonomy
classifies as a `GenerationError`. -/
theorem human_query_to_sql_empty_response_kind :
    human_query_to_sql "show all users" "" = Except.error GeminiError.emptyResponse ∧
    isTranslationError GeminiError.emptyResponse = false ∧
    translationFailureCondition "" :=
  ⟨rfl, rfl, Or.inl rfl⟩

/-- C4 (amended to non-empty response texts).  For every non-empty model
response text, `human_query_to_sql` fails exactly when the text has no brace
pair, or the extracted payload is not valid JSON, or the parsed payload lacks
the key `sql_query` — and every such failure is a `TranslationError`;
otherwise an `SQLQueryResult` is produced. -/
theorem human_query_to_sql_failure_iff (q t : String) (h : t ≠ "") :
    ((∃ e, human_query_to_sql q t = Except.error e) ↔ translationFailureCondition t) ∧
    (∀ e, human_query_to_sql q t = Except.error e → isTranslationError e = true) := by
  rcases hc : _clean_json_response t.data with _ | cleaned
  · rw [human_query_to_sql_eq_of_clean_none q t h hc]
    refine ⟨⟨fun _ => Or.inl hc, fun _ => ⟨GeminiError.noJsonFound, rfl⟩⟩, ?_⟩
    intro e he
    cases he
    rfl
  · rw [human_query_to_sql_eq_of_clean_some q t h cleaned hc]
    rcases hj : json_loads cleaned with _ | j
    · rw [parse_sql_payload_eq_none q cleaned hj]
      refine ⟨⟨fun _ => Or.inr (Or.inl ⟨cleaned, hc, hj⟩),
        fun _ => ⟨GeminiError.jsonDecodeError, rfl⟩⟩, ?_⟩
      intro e he
      cases he
      rfl
    · rw [parse_sql_payload_eq_some q cleaned j hj]
      rcases j with _ | b | qn | s | elems | kvs
      · exact ⟨⟨fun _ => Or.inr (Or.inr ⟨cleaned, _, hc, hj, rfl⟩),
          fun _ => ⟨GeminiError.missingSqlQuery, rfl⟩⟩, fun e he => by cases he; rfl⟩
      · exact ⟨⟨fun _ => Or.inr (Or.inr ⟨cleaned, _, hc, hj, rfl⟩),
          fun _ => ⟨GeminiError.missingSqlQuery, rfl⟩⟩, fun e he => by cases he; rfl⟩
      · exact ⟨⟨fun _ => Or.inr (Or.inr ⟨cleaned, _, hc, hj, rfl⟩),
          fun _ => ⟨GeminiError.missingSqlQuery, rfl⟩⟩, fun e he => by cases he; rfl⟩
      · exact ⟨⟨fun _ => Or.inr (Or.inr ⟨cleaned, _, hc, hj, rfl⟩),
          fun _ => ⟨GeminiError.missingSqlQuery, rfl⟩⟩, fun e he => by cases he; rfl⟩
      · exact ⟨⟨fun _ => Or.inr (Or.inr ⟨cleaned, _, hc, hj, rfl⟩),
          fun _ => ⟨GeminiError.missingSqlQuery, rfl⟩⟩, fun e he => by cases he; rfl⟩
      · rcases hk : hasKeyJson "sql_query" (Json.obj kvs) with _ | _
        · have hpay : payload_to_result q (Json.obj kvs) =
              Except.error GeminiError.missingSqlQuery := by
            simp [payload_to_result, hk]
          rw [hpay]
          refine ⟨⟨fun _ => Or.inr (Or.inr ⟨cleaned, Json.obj kvs, hc, hj, hk⟩),
            fun _ => ⟨GeminiError.missingSqlQuery, rfl⟩⟩, ?_⟩
          intro e he
          cases he
          rfl
        · have hpay : payload_to_result q (Json.obj kvs) =
              Except.ok { sql_query := dictGetD kvs "sql_query" (Json.str "")
                          original_query := dictGetD kvs "original_query" (Json.str q)
                          confidence := dictGetD kvs "confidence" (Json.num (1/2)) } := by
            simp [payload_to_result, hk]
          rw [hpay]
          refine ⟨⟨?_, ?_⟩, ?_⟩
          · rintro ⟨e, he⟩
            exact Except.noConfusion he
          · rintro (h1 | ⟨cl, hcl, hjl⟩ | ⟨cl, jj, hcl, hjj, hkk⟩)
            · exact Option.noConfusion (hc.symm.trans h1)
            · rw [hc] at hcl
              injection hcl with hcl'
              subst hcl'
              rw [hj] at hjl
              exact Option.noConfusion hjl
            · rw [hc] at hcl
              injection hcl with hcl'
              subst hcl'
              rw [hj] at hjj
              injection hjj with hjj'
              subst hjj'
              rw [hk] at hkk
              exact Bool.noConfusion hkk
          · intro e he
            exact Except.noConfusion he

/-- Witness for C4 (amended): the spec's missing-key example `\x7b"foo": 1\x7d`
is a non-empty text on which the equivalence is evaluated. -/
theorem human_query_to_sql_failure_iff_witness :
    ("\x7b\"foo\": 1\x7d" ≠ ("" : String)) ∧
    (((∃ e, human_query_to_sql "q" "\x7b\"foo\": 1\x7d" = Except.error e) ↔
        translationFailureCondition "\x7b\"foo\": 1\x7d") ∧
      (∀ e, human_query_to_sql "q" "\x7b\"foo\": 1\x7d" = Except.error e →
        isTranslationError e = true)) :=
  ⟨by decide, human_query_to_sql_failure_iff "q" "\x7b\"foo\": 1\x7d" (by decide)⟩

/-- C5.  On the spec's example response text the translation succeeds with
the extracted SQL, the question as the defaulted `original_query`, and the
defaulted confidence `0.5`; in general, whenever translation succeeds on a
payload that omits `original_query` the result carries the input question,
and whenever the payload omits `confidence` the result carries `0.5`. -/
theorem human_query_to_sql_demo_and_defaults :
    (∀ q : String, human_query_to_sql q geminiDemoResponse =
      Except.ok { sql_query := Json.str "SELECT * FROM users"
                  original_query := Json.str q
                  confidence := Json.num (1/2) }) ∧
    (∀ q t r, human_query_to_sql q t = Except.ok r →
      ∃ cleaned kvs, _clean_json_response t.data = some cleaned ∧
        json_loads cleaned = some (Json.obj kvs) ∧
        (kvs.any (fun kv => kv.1 = "original_query") = false →
          r.original_query = Json.str q) ∧
        (kvs.any (fun kv => kv.1 = "confidence") = false →
          r.confidence = Json.num (1/2))) := by
  constructor
  · intro q
    rfl
  · intro q t r hok
    by_cases ht : t = ""
    · rw [ht] at hok
      exact Except.noConfusion hok
    · rcases hc : _clean_json_response t.data with _ | cleaned
      · rw [human_query_to_sql_eq_of_clean_none q t ht hc] at hok
        exact Except.noConfusion hok
      · rw [human_query_to_sql_eq_of_clean_some q t ht cleaned hc] at hok
        rcases hj : json_loads cleaned with _ | j
        · rw [parse_sql_payload_eq_none q cleaned hj] at hok
          exact Except.noConfusion hok
        · rw [parse_sql_payload_eq_some q cleaned j hj] at hok
          rcases j with _ | b | qn | s | elems | kvs
          · exact Except.noConfusion hok
          · exact Except.noConfusion hok
          · exact Except.noConfusion hok
          · exact Except.noConfusion hok
          · exact Except.noConfusion hok
          · rcases hk : hasKeyJson "sql_query" (Json.obj kvs) with _ | _
            · have hpay : payload_to_result q (Json.obj kvs) =
                  Except.error GeminiError.missingSqlQuery := by
                simp [payload_to_result, hk]
              rw [hpay] at hok
              exact Except.noConfusion hok
            · have hpay : payload_to_result q (Json.obj kvs) =
                  Except.ok { sql_query := dictGetD kvs "sql_query" (Json.str "")
                              original_query := dictGetD kvs "original_query" (Json.str q)
                              confidence := dictGetD kvs "confidence" (Json.num (1/2)) } := by
                simp [payload_to_result, hk]
              rw [hpay] at hok
              injection hok with hok'
              subst hok'
              exact ⟨cleaned, kvs, rfl, hj,
                fun habs => dictGetD_not_mem kvs "original_query" (Json.str q) habs,
                fun habs => dictGetD_not_mem kvs "confidence" (Json.num (1/2)) habs⟩

/-- Witness for C5: the demo equation evaluated at the spec's question
`show all users`. -/
theorem human_query_to_sql_demo_and_defaults_witness :
    human_query_to_sql "show all users" geminiDemoResponse =
      Except.ok { sql_query := Json.str "SELECT * FROM users"
                  original_query := Json.str "show all users"
                  confidence := Json.num (1/2) } :=
  human_query_to_sql_demo_and_defaults.1 "show all users"

/-- Witness for C9: with both dependencies unconfigured, the raised message
names both of them. -/
theorem verify_services_configured_spec_witness :
    _verify_services_configured false false =
      Except.error (PyExc.valueError
        "Services not configured: Supabase is not configured, Gemini is not configured") ∧
    (("Supabase is not configured".data <:+:
        "Services not configured: Supabase is not configured, Gemini is not configured".data) ↔
      (false : Bool) = false) ∧
    (("Gemini is not configured".data <:+:
        "Services not configured: Supabase is not configured, Gemini is not configured".data) ↔
      (false : Bool) = false) := by
  have h := (verify_services_configured_spec false false).2.1
    "Services not configured: Supabase is not configured, Gemini is not configured" (by rfl)
  exact ⟨by rfl, h.1, h.2⟩
